import Mathlib

/-!
Shallow embedding of the playwright-runner execution engine and storage
subsystem, translated from the TypeScript sources:

* `PlaywrightOSExecutorService` (admission control, timeout monitoring,
  process termination, result normalization, graceful shutdown);
* `StorageService` (compression decision, upload/download round trip);
* `StorageCleanupService` (expired-artifact cleanup);
* `FileSystemStorageProvider` (HMAC-signed URL generation and validation);
* the earlier executor variant `PlaywrightOSExecutor` (`parseFromOutput`).

External library behaviour (zod schema parsing, the URL parser, zlib
gzip/gunzip, HMAC-SHA256, JavaScript number-from-string conversion) is
modelled by explicit parameters or by outcome fields on the input records;
filesystem and database effects are modelled as explicit state passing.
Times are epoch milliseconds (seconds for signed URLs) as integers.
-/

/-! ## Canonical status sets -/

/-- Execution lifecycle status, the `ExecutionStatus` union of the source. -/
inductive ExecutionStatus
  | queued
  | running
  | completed
  | failed
  | cancelled
deriving DecidableEq

/-- Per-test outcome set returned by `mapPlaywrightStatus` in
`PlaywrightOSExecutorService`. -/
inductive TestStatus
  | passed
  | failed
  | skipped
  | pending
deriving DecidableEq

/-- Artifact file type, the `FileTypeSchema` zod enum of
`src/storage/types/files.type.ts`. -/
inductive FileType
  | video
  | screenshot
  | log
  | report
deriving DecidableEq

/-! ## Timeout configuration (`readTimeout` / `getTimeout`) -/

/-- Shape of the value stored under the `timeout` key of
`execution.executionConfig`, split along the branches `readTimeout`
distinguishes: the key is absent, the value is a finite JavaScript number,
a non-finite number (`NaN`, `Infinity`), a string (carrying the result of
`Number(v.trim())` when that result is finite, `none` otherwise), or a
value of any other type.  JavaScript numbers are modelled as integers;
no claim depends on fractional milliseconds. -/
inductive TimeoutValue
  | missing
  | num (v : Int)
  | nonFiniteNum
  | str (parsed : Option Int)
  | otherType
deriving DecidableEq

/-- Translation of `PlaywrightOSExecutorService.readTimeout`: a finite
number is returned when positive, a string when its trimmed numeric value
is finite and positive, everything else yields `undefined`. -/
def readTimeout : TimeoutValue → Option Int
  | TimeoutValue.missing => none
  | TimeoutValue.num v => if 0 < v then some v else none
  | TimeoutValue.nonFiniteNum => none
  | TimeoutValue.str parsed =>
      match parsed with
      | some n => if 0 < n then some n else none
      | none => none
  | TimeoutValue.otherType => none

/-- The global default `config.testTimeout` (60 000 ms) of
`PlaywrightOSExecutorService`. -/
def testTimeoutDefault : Int := 60000

/-- The `config.maxConcurrentTests` default (5). -/
def maxConcurrentTests : Nat := 5

/-! ## Execution records and admission (`executeTest`, lines 183-206) -/

/-- An `Execution` as consumed by `executeTest`.  `schemaParses` carries
the outcome of the external zod `ExecutionSchema.parse` call and
`baseUrlValid` the outcome of the external `URL` parse plus the
http/https protocol check in `sanitizeUrl`; both libraries live outside
the repository. -/
structure Execution where
  id : String
  code : String
  baseUrl : Option String
  timeoutField : TimeoutValue
  schemaParses : Bool
  baseUrlValid : Bool
deriving DecidableEq

/-- Translation of `PlaywrightOSExecutorService.getTimeout`:
`readTimeout(execution.executionConfig) || this.config.testTimeout`
(`readTimeout` never returns `0`, so `||` only replaces `undefined`). -/
def getTimeout (e : Execution) : Int :=
  match readTimeout e.timeoutField with
  | some t => t
  | none => testTimeoutDefault

/-- Success of `validateExecution`: `ExecutionSchema.parse` succeeds and
both `execution.id` and `execution.code` are truthy (non-empty). -/
def validateExecutionOk (e : Execution) : Bool :=
  e.schemaParses && !(e.id == "") && !(e.code == "")

/-- Success of `sanitizeExecution`: `sanitizeCode` never throws, and
`sanitizeUrl` is only invoked on a truthy `baseUrl`. -/
def sanitizeOk (e : Execution) : Bool :=
  match e.baseUrl with
  | none => true
  | some _ => e.baseUrlValid

/-- A status write issued through `updateExecutionStatus(id, status,
startedAt?, completedAt?, errorMessage?)`. -/
structure StatusUpdate where
  id : String
  status : ExecutionStatus
  startedAt : Option Int
  completedAt : Option Int
  errorMessage : Option String
deriving DecidableEq

/-- In-memory service state relevant to admission: the `runningTests` map
(job id to its `RunningTestInfo.startTime`) in insertion order, and the
`isShuttingDown` flag. -/
structure ServiceState where
  runningTests : List (String × Int)
  isShuttingDown : Bool
deriving DecidableEq

/-- JavaScript `Map.set` on an association list: replace in place when
the key is present, append otherwise. -/
def mapSet (m : List (String × Int)) (k : String) (v : Int) : List (String × Int) :=
  if m.any (fun p => p.1 == k) then
    m.map (fun p => if p.1 == k then (k, v) else p)
  else m ++ [(k, v)]

/-- Outcome of the admission prefix of `executeTest`. -/
inductive AdmitOutcome
  | invalidExecution
  | sanitizeError
  | capacityExceeded
  | shuttingDown
  | admitted
deriving DecidableEq

/-- Result of the admission prefix of `executeTest`: the thrown error (if
any), the service state afterwards, and the status writes issued so far. -/
structure AdmitResult where
  outcome : AdmitOutcome
  state : ServiceState
  statusWrites : List StatusUpdate
deriving DecidableEq

/-- Translation of `executeTest` up to and including the
`updateExecutionStatus(id, 'running', new Date())` call (source lines
183-206): validate, sanitize, reject when
`runningTests.size >= maxConcurrentTests`, reject when shutting down,
otherwise insert the `RunningTestInfo` into the map and write status
`running`. -/
def executeTestAdmit (st : ServiceState) (e : Execution) (now : Int) : AdmitResult :=
  if !(validateExecutionOk e) then
    { outcome := AdmitOutcome.invalidExecution, state := st, statusWrites := [] }
  else if !(sanitizeOk e) then
    { outcome := AdmitOutcome.sanitizeError, state := st, statusWrites := [] }
  else if maxConcurrentTests ≤ st.runningTests.length then
    { outcome := AdmitOutcome.capacityExceeded, state := st, statusWrites := [] }
  else if st.isShuttingDown then
    { outcome := AdmitOutcome.shuttingDown, state := st, statusWrites := [] }
  else
    { outcome := AdmitOutcome.admitted,
      state := { st with runningTests := mapSet st.runningTests e.id now },
      statusWrites := [{ id := e.id, status := ExecutionStatus.running,
                         startedAt := some now, completedAt := none, errorMessage := none }] }

/-! ## Timeout monitoring and process termination -/

/-- Signals sent through `ChildProcess.kill`. -/
inductive Signal
  | sigterm
  | sigkill
deriving DecidableEq

/-- Translation of `terminateProcess`: return immediately when the
process handle is absent or its `killed` flag is already set; otherwise
send `SIGTERM`, and when the 5-second follow-up timer fires send
`SIGKILL` unless the `killed` flag is set by then.  `killedNow` and
`killedAtGrace` carry the value of the Node `killed` flag at the call and
when the follow-up timer fires; the result lists timestamped signals. -/
def terminateProcess (killedNow killedAtGrace : Bool) (t : Int) : List (Int × Signal) :=
  if killedNow then []
  else (t, Signal.sigterm) ::
    (if killedAtGrace then [] else [(t + 5000, Signal.sigkill)])

/-- The duration for which `executeWithMonitoring` arms its watchdog
timer: `this.getTimeout(execution) + 5_000` (the source comment reads
`Extra buffer to let test finish`). -/
def monitorTimeoutMs (e : Execution) : Int :=
  getTimeout e + 5000

/-- What happens when the watchdog timer of `executeWithMonitoring`
fires: `terminateProcess(childProcess)` runs and the promise is rejected
with the timeout message interpolating the armed duration. -/
structure MonitorTimeoutFire where
  signals : List (Int × Signal)
  rejection : String
deriving DecidableEq

/-- Translation of the `setTimeout` callback of `executeWithMonitoring`
(source lines 515-519), firing at `startTime + monitorTimeoutMs e`. -/
def onMonitorTimeout (e : Execution) (startTime : Int) (killedNow killedAtGrace : Bool) :
    MonitorTimeoutFire :=
  { signals := terminateProcess killedNow killedAtGrace (startTime + monitorTimeoutMs e),
    rejection := "Test execution timed out after " ++ toString (monitorTimeoutMs e) ++ "ms" }

/-! ## Graceful shutdown (`performGracefulShutdown`) -/

/-- The slice of `RunningTestInfo` that `performGracefulShutdown` reads:
whether a process handle exists and the Node `killed` flag of that
process at termination time and when the 5-second force-kill timer
fires. -/
structure RunningTestInfo where
  startTime : Int
  hasProcess : Bool
  procKilled : Bool
  procKilledAtGrace : Bool
deriving DecidableEq

/-- Result of `performGracefulShutdown`: the status writes, the signals
sent per job, how long the routine waited before returning, and the
`runningTests` map afterwards. -/
structure ShutdownResult where
  updates : List StatusUpdate
  signals : List (String × List (Int × Signal))
  waitedMs : Int
  finalRunning : List (String × RunningTestInfo)
deriving DecidableEq

/-- Translation of `performGracefulShutdown`: return at once when no job
is running; otherwise, for each tracked job, stop monitoring, call
`terminateProcess` when a process handle exists, and write status
`cancelled` with `completed := now` and error message
`Service shutdown`; then race the combined promise against a 10 000 ms
sleep (`settleMs` is the time all per-job updates take to settle) and
clear the map. -/
def performGracefulShutdown (running : List (String × RunningTestInfo)) (now settleMs : Int) :
    ShutdownResult :=
  if running.isEmpty then
    { updates := [], signals := [], waitedMs := 0, finalRunning := running }
  else
    { updates := running.map (fun p =>
        { id := p.1, status := ExecutionStatus.cancelled, startedAt := none,
          completedAt := some now, errorMessage := some "Service shutdown" }),
      signals := running.map (fun p =>
        (p.1, if p.2.hasProcess then
                terminateProcess p.2.procKilled p.2.procKilledAtGrace now
              else [])),
      waitedMs := min settleMs 10000,
      finalRunning := [] }

/-! ## Result normalization (`processResults`, `mapPlaywrightStatus`) -/

/-- JavaScript `toLowerCase` on the ASCII strings relevant here,
modelled character-wise (kernel-computable, unlike `String.toLower`
which recurses on byte positions). -/
def toLowerStr (s : String) : String :=
  String.mk (s.toList.map Char.toLower)

/-- Translation of `PlaywrightOSExecutorService.mapPlaywrightStatus`:
lower-case the runner status and map the four recognised names to
themselves, everything else to `failed`. -/
def mapPlaywrightStatus (status : String) : TestStatus :=
  if toLowerStr status == "passed" then TestStatus.passed
  else if toLowerStr status == "failed" then TestStatus.failed
  else if toLowerStr status == "skipped" then TestStatus.skipped
  else if toLowerStr status == "pending" then TestStatus.pending
  else TestStatus.failed

/-- An error entry of a Playwright test result. -/
structure TestError where
  message : String
deriving DecidableEq

/-- An attachment of a Playwright test result.  `statSize` carries the
outcome of the external `fs.stat` call on the attachment path (`none`
when `stat` fails). -/
structure Attachment where
  name : String
  path : Option String
  contentType : String
  statSize : Option Nat
deriving DecidableEq

/-- One entry of `test.results` in the Playwright JSON report. -/
structure SpecResult where
  status : String
  duration : Int
  startTime : Int
  errors : List TestError
  attachments : List Attachment
deriving DecidableEq

/-- One entry of `spec.tests` in the Playwright JSON report. -/
structure SpecTest where
  results : List SpecResult
deriving DecidableEq

/-- One spec of the Playwright JSON report. -/
structure ResultSpec where
  title : String
  ok : Bool
  tests : List SpecTest
deriving DecidableEq

/-- A nested (inner) suite of the Playwright JSON report. -/
structure SuiteInner where
  title : String
  specs : List ResultSpec
deriving DecidableEq

/-- A top-level suite of the Playwright JSON report. -/
structure Suite where
  title : String
  specs : List ResultSpec
  suites : List SuiteInner
deriving DecidableEq

/-- The Playwright JSON report as read by `processResults`. -/
structure PlaywrightJsonReport where
  suites : List Suite
deriving DecidableEq

/-- Resource usage summary attached to an execution result. -/
structure ResourceUsage where
  peakMemoryMb : Int
  avgCpuPercent : Int
deriving DecidableEq

/-- The `PlaywrightExecutionResult` produced by `executeWithMonitoring`:
exit code, captured output, the parsed report when `results.json` was
readable, duration, and resource usage. -/
structure PlaywrightExecutionResult where
  exitCode : Int
  stdout : String
  stderr : String
  resultsJson : Option PlaywrightJsonReport
  duration : Int
  resourceUsage : ResourceUsage
deriving DecidableEq

/-- A normalized per-test row (`ExecutionDetail` candidate). -/
structure TestDetail where
  title : String
  status : TestStatus
  durationMs : Int
  startedAt : Int
  completedAt : Int
  errorMessage : Option String
deriving DecidableEq

/-- A normalized artifact descriptor (`ExecutionFile` candidate). -/
structure FileEntry where
  fileName : String
  filePath : String
  fileType : FileType
  mimeType : String
  fileSize : Nat
deriving DecidableEq

/-- Aggregate metrics computed by `processResults`. -/
structure ExecutionMetricsData where
  totalTests : Nat
  totalPassed : Nat
  totalFailed : Nat
  totalSkipped : Nat
  totalDurationMs : Int
  averageTestDurationMs : Int
  screenshotsCount : Nat
  videosCount : Nat
  memoryUsageMb : Int
  cpuUsagePercent : Int
deriving DecidableEq

/-- The `ProcessedResults` record of `processResults`. -/
structure ProcessedResults where
  status : ExecutionStatus
  testDetails : List TestDetail
  files : List FileEntry
  metrics : ExecutionMetricsData
deriving DecidableEq

/-- `path.basename`: the last slash-separated component of a path. -/
def basename (p : String) : String :=
  (p.splitOn "/").getLastD p

/-- Translation of `getFileType(name, contentType)`: video and image
MIME prefixes first, then a case-insensitive `log` substring in the
attachment name, defaulting to `report`. -/
def getFileType (name contentType : String) : FileType :=
  if contentType.startsWith "video/" then FileType.video
  else if contentType.startsWith "image/" then FileType.screenshot
  else if 1 < ((toLowerStr name).splitOn "log").length then FileType.log
  else FileType.report

/-- The `TestDetail` built from one Playwright test result. -/
def detailOfResult (specTitle : String) (r : SpecResult) : TestDetail :=
  { title := specTitle,
    status := mapPlaywrightStatus r.status,
    durationMs := r.duration,
    startedAt := r.startTime,
    completedAt := r.startTime + r.duration,
    errorMessage := (r.errors.head?).map TestError.message }

/-- The `FileEntry` built for one attachment carrying a path. -/
def fileOfAttachment (a : Attachment) (p : String) : FileEntry :=
  { fileName := basename p,
    filePath := p,
    fileType := getFileType a.name a.contentType,
    mimeType := a.contentType,
    fileSize := a.statSize.getD 0 }

/-- Translation of `processSpec`: one `TestDetail` per test result (title
from the spec, status mapped, end time derived from start plus duration,
first error message if any) and one `FileEntry` per attachment with a
path (size from `fs.stat`, `0` when `stat` failed). -/
def processSpec (spec : ResultSpec) : List TestDetail × List FileEntry :=
  let details : List TestDetail :=
    (spec.tests.map fun test =>
      test.results.map fun r => detailOfResult spec.title r).flatten
  let files : List FileEntry :=
    ((spec.tests.map fun test =>
      (test.results.map fun r =>
        r.attachments.filterMap fun a =>
          a.path.map fun p => fileOfAttachment a p).flatten).flatten)
  (details, files)

/-- Translation of `processResults`: flatten top-level suite specs and
one level of nested suite specs, normalize each spec through
`processSpec`, append directory-scanned artifacts (`scanForArtifacts`
being filesystem IO, its result is the `scanned` parameter) de-duplicated
by `filePath`, and compute the aggregate metrics.  The terminal status is
`failed` when any detail failed, else `completed`.  Note that neither the
exit code nor the captured stderr contributes any test detail: with no
report, `specs` is empty and so is `testDetails`. -/
def processResults (result : PlaywrightExecutionResult) (scanned : List FileEntry) :
    ProcessedResults :=
  let topSpecs : List ResultSpec :=
    match result.resultsJson with
    | some js => (js.suites.map Suite.specs).flatten
    | none => []
  let nestedSpecs : List ResultSpec :=
    match result.resultsJson with
    | some js => (js.suites.map (fun s => (s.suites.map SuiteInner.specs).flatten)).flatten
    | none => []
  let specs := topSpecs ++ nestedSpecs
  let testDetails := (specs.map (fun s => (processSpec s).1)).flatten
  let reportFiles := (specs.map (fun s => (processSpec s).2)).flatten
  let files := scanned.foldl (fun fs f =>
    if fs.any (fun g => g.filePath == f.filePath) then fs else fs ++ [f]) reportFiles
  let totalTests := specs.length
  let totalPassed := (specs.filter ResultSpec.ok).length
  { status :=
      if testDetails.any (fun t => t.status == TestStatus.failed) then ExecutionStatus.failed
      else ExecutionStatus.completed,
    testDetails := testDetails,
    files := files,
    metrics :=
      { totalTests := totalTests,
        totalPassed := totalPassed,
        totalFailed := totalTests - totalPassed,
        totalSkipped := 0,
        totalDurationMs := result.duration,
        averageTestDurationMs :=
          if 0 < totalTests then result.duration / (totalTests : Int) else 0,
        screenshotsCount := (files.filter (fun f => f.fileType == FileType.screenshot)).length,
        videosCount := (files.filter (fun f => f.fileType == FileType.video)).length,
        memoryUsageMb := result.resourceUsage.peakMemoryMb,
        cpuUsagePercent := result.resourceUsage.avgCpuPercent } }

/-- A `TestResult` of the earlier executor variant
(`src/src/executions/services/playwright-so-executor.service.ts`). -/
structure TestResult where
  name : String
  suite : String
  status : TestStatus
  duration : Int
  error : Option String
deriving DecidableEq

/-- Translation of `parseFromOutput(stdout, stderr, exitCode)` of the
earlier executor variant: exit code `0` yields one synthetic passed
result; any other exit code yields one synthetic failed result whose
error is the captured stderr when truthy, else the literal
`Test execution failed`. -/
def parseFromOutput (stdout stderr : String) (exitCode : Int) : List TestResult :=
  if exitCode == 0 then
    [{ name := "Test Execution", suite := "Default", status := TestStatus.passed,
       duration := 0, error := none }]
  else
    [{ name := "Test Execution", suite := "Default", status := TestStatus.failed,
       duration := 0,
       error := some (if stderr == "" then "Test execution failed" else stderr) }]

/-! ## Artifact storage (`StorageService`) -/

/-- Byte sequences; artifact contents are opaque byte lists (the claims
do not depend on byte-level arithmetic). -/
abbrev ByteSeq := List Nat

/-- The zlib gzip/gunzip pair used by `StorageService`; zlib is an
external library, so the codec is a parameter of the model. -/
structure Codec where
  gzip : ByteSeq → ByteSeq
  gunzip : ByteSeq → ByteSeq

/-- Translation of `StorageService.shouldCompress`: always compress
`log` artifacts; compress `report` artifacts above 512 KB; nothing
else. -/
def shouldCompress (fileType : FileType) (data : ByteSeq) : Bool :=
  if fileType == FileType.log then true
  else if fileType == FileType.report && 512 * 1024 < data.length then true
  else false

/-- The stored artifact as `uploadExecutionFile` leaves it: the bytes
handed to the storage provider plus the `compressed` / `originalSize`
metadata persisted alongside. -/
structure StoredObject where
  bytes : ByteSeq
  compressed : Bool
  originalSize : Nat
deriving DecidableEq

/-- Translation of the compression step of
`StorageService.uploadExecutionFile`: gzip the buffer exactly when
`shouldCompress` says so and record the `compressed` flag and original
size in the stored metadata.  Path generation, the provider upload and
the MongoDB write are filesystem/database IO and are represented by the
returned `StoredObject`. -/
def uploadExecutionFile (c : Codec) (fileType : FileType) (file : ByteSeq) : StoredObject :=
  let originalSize := file.length
  if shouldCompress fileType file then
    { bytes := c.gzip file, compressed := true, originalSize := originalSize }
  else
    { bytes := file, compressed := false, originalSize := originalSize }

/-- Translation of `StorageService.downloadExecutionFile`: fetch the
stored bytes and gunzip exactly when the stored metadata marks the file
compressed. -/
def downloadExecutionFile (c : Codec) (o : StoredObject) : ByteSeq :=
  if o.compressed then c.gunzip o.bytes else o.bytes

/-! ## Expired-artifact cleanup (`StorageCleanupService`) -/

/-- An `ExecutionFile` record as seen by the cleanup job: MongoDB id and
optional expiration timestamp. -/
structure FileRecord where
  id : Nat
  expiresAt : Option Int
deriving DecidableEq

/-- The `expiresAt: { $lt: new Date() }` filter: records without an
`expiresAt` never match `$lt`. -/
def isExpired (now : Int) (r : FileRecord) : Bool :=
  match r.expiresAt with
  | some t => decide (t < now)
  | none => false

/-- The batch examined by one cleanup run: expired records limited to
100 (`.limit(100)`). -/
def expiredBatch (now : Int) (db : List FileRecord) : List FileRecord :=
  (db.filter (isExpired now)).take 100

/-- Translation of `StorageService.deleteExecutionFile` restricted to
its record effect: the provider delete is best-effort (failures are
logged and skipped) and `findByIdAndDelete` removes the record. -/
def deleteExecutionFile (db : List FileRecord) (fid : Nat) : List FileRecord :=
  db.filter (fun r => !(r.id == fid))

/-- Translation of `StorageCleanupService.cleanupExpiredFiles` at a fixed
current time: query the expired batch once, then delete each record of
the batch in turn. -/
def cleanupExpiredFiles (now : Int) (db : List FileRecord) : List FileRecord :=
  (expiredBatch now db).foldl (fun acc f => deleteExecutionFile acc f.id) db

/-! ## Filesystem-provider signed URLs (`FileSystemStorageProvider`) -/

/-- The decimal digit character for `n % 10`-style values, as in the
standard digit table. -/
def decDigitChar (n : Nat) : Char :=
  match n with
  | 0 => '0' | 1 => '1' | 2 => '2' | 3 => '3' | 4 => '4'
  | 5 => '5' | 6 => '6' | 7 => '7' | 8 => '8' | _ => '9'

/-- Decimal digit list (most significant first) of a natural number,
modelling the JavaScript number-to-string conversion used by
`expires.toString()` and template interpolation. -/
def natToDecList (n : Nat) : List Char :=
  if h : n < 10 then [decDigitChar n]
  else natToDecList (n / 10) ++ [decDigitChar (n % 10)]
decreasing_by
  exact Nat.div_lt_self (Nat.pos_of_ne_zero (by omega)) (by omega)

/-- Decimal string of a natural number. -/
def natToDecStr (n : Nat) : String :=
  String.mk (natToDecList n)

/-- Accumulate a digit list into the number it denotes, the arithmetic
core of `parseInt`. -/
def parseDigits (l : List Char) : Nat :=
  l.foldl (fun a c => 10 * a + (c.toNat - 48)) 0

/-- JavaScript `parseInt(s, 10)` on non-negative input: read the leading
run of decimal digits; `none` stands for `NaN` (no leading digit). -/
def parseIntJS (s : String) : Option Nat :=
  let ds := s.toList.takeWhile (fun c => c.isDigit)
  if ds.isEmpty then none else some (parseDigits ds)

/-- The query parameters embedded by
`FileSystemStorageProvider.getSignedUrl`. -/
structure SignedParams where
  token : String
  expires : String
deriving DecidableEq

/-- Translation of `FileSystemStorageProvider.getSignedUrl` (the file
existence check is filesystem IO and outside the model): the expiry is
`floor(Date.now() / 1000) + expiresIn` and the token is the hex HMAC-SHA256
of `key:expires` under the configured secret.  `hmac` is the external
`crypto.createHmac` primitive, a parameter of the model mapping
(secret, message) to the hex digest. -/
def fsGetSignedUrl (hmac : String → String → String) (secretKey key : String)
    (nowSec expiresIn : Nat) : SignedParams :=
  let expires := nowSec + expiresIn
  { token := hmac secretKey (key ++ ":" ++ natToDecStr expires),
    expires := natToDecStr expires }

/-- Translation of `FileSystemStorageProvider.validateSignedUrl`: reject
when the current time is past the parsed expiry (a `NaN` expiry never
compares greater, so the check passes), then recompute the HMAC over
`key:expires` (the expiry string exactly as received) and compare. -/
def fsValidateSignedUrl (hmac : String → String → String) (secretKey key token expires : String)
    (nowSec : Nat) : Bool :=
  let expired :=
    match parseIntJS expires with
    | some t => decide (t < nowSec)
    | none => false
  if expired then false
  else token == hmac secretKey (key ++ ":" ++ expires)

/-! ## Concrete instances used by witnesses and counterexamples -/

/-- A valid execution with no per-job timeout override. -/
def sampleExecution : Execution :=
  { id := "job1", code := "code", baseUrl := none,
    timeoutField := TimeoutValue.missing, schemaParses := true, baseUrlValid := true }

/-- A service state with five tracked in-flight jobs (the capacity
default). -/
def fullState : ServiceState :=
  { runningTests := [("a", 0), ("b", 0), ("c", 0), ("d", 0), ("e", 0)],
    isShuttingDown := false }

/-- A service state already tracking the id of `sampleExecution`. -/
def dupState : ServiceState :=
  { runningTests := [("job1", 0)], isShuttingDown := false }

/-- One in-flight job with a live (not yet signalled) process. -/
def oneJobRunning : List (String × RunningTestInfo) :=
  [("job1", { startTime := 0, hasProcess := true, procKilled := false,
              procKilledAtGrace := false })]

/-- Two in-flight jobs with live processes. -/
def twoJobsRunning : List (String × RunningTestInfo) :=
  [("j1", { startTime := 0, hasProcess := true, procKilled := false,
            procKilledAtGrace := true }),
   ("j2", { startTime := 1, hasProcess := true, procKilled := false,
            procKilledAtGrace := false })]

/-- An execution result with a nonzero exit code, nonempty stderr and no
readable structured report. -/
def noReportResult : PlaywrightExecutionResult :=
  { exitCode := 1, stdout := "", stderr := "boom", resultsJson := none,
    duration := 1234, resourceUsage := { peakMemoryMb := 0, avgCpuPercent := 0 } }

/-- A concrete invertible codec standing in for gzip/gunzip in
witnesses. -/
def revCodec : Codec :=
  { gzip := List.reverse, gunzip := List.reverse }

/-- A video artifact strictly larger than the 512 KB threshold. -/
def bigVideo : ByteSeq := List.replicate (512 * 1024 + 1) 0

/-- A store of 101 artifact records, all expired at any positive time. -/
def expiredDb101 : List FileRecord :=
  (List.range 101).map (fun i => { id := i, expiresAt := some 0 })

/-- A small store with one expired, one unexpiring and one future
record (relative to time 5). -/
def sampleDb : List FileRecord :=
  [{ id := 1, expiresAt := some 0 }, { id := 2, expiresAt := none },
   { id := 3, expiresAt := some 10 }]

/-- A concrete deterministic keyed digest standing in for HMAC-SHA256 in
witnesses. -/
def concatHmac : String → String → String :=
  fun secret msg => secret ++ "#" ++ msg

/-! ## Helper lemmas -/

/-- Records surviving the deletion fold of the cleanup run are records
of the original store whose id is not in the deleted batch. -/
theorem mem_foldl_deleteExecutionFile (L : List FileRecord) :
    ∀ (db : List FileRecord) (r : FileRecord),
      r ∈ L.foldl (fun acc f => deleteExecutionFile acc f.id) db →
      r ∈ db ∧ ∀ f ∈ L, f.id ≠ r.id := by
  induction L with
  | nil =>
    intro db r h
    exact ⟨h, by simp⟩
  | cons x L ih =>
    intro db r h
    obtain ⟨h1, h2⟩ := ih (deleteExecutionFile db x.id) r h
    rw [deleteExecutionFile, List.mem_filter] at h1
    obtain ⟨hdb, hne⟩ := h1
    refine ⟨hdb, ?_⟩
    intro f hf
    rcases List.mem_cons.1 hf with hfx | hfL
    · subst hfx
      simp only [Bool.not_eq_true', beq_eq_false_iff_ne, ne_eq] at hne
      exact fun hid => hne hid.symm
    · exact h2 f hfL

/-- Digit characters emitted by `decDigitChar` below 10 decode back to
their value. -/
theorem decDigitChar_toNat (n : Nat) (h : n < 10) : (decDigitChar n).toNat = 48 + n := by
  interval_cases n <;> rfl

/-- Digit characters emitted by `decDigitChar` below 10 are decimal
digits. -/
theorem decDigitChar_isDigit (n : Nat) (h : n < 10) : (decDigitChar n).isDigit = true := by
  interval_cases n <;> rfl

/-- Every character of a decimal rendering is a digit. -/
theorem natToDecList_isDigitAll (n : Nat) : ∀ c ∈ natToDecList n, c.isDigit = true := by
  induction n using Nat.strong_induction_on with
  | _ n ih =>
    unfold natToDecList
    split
    · next h =>
      intro c hc
      rw [List.mem_singleton] at hc
      subst hc
      exact decDigitChar_isDigit n h
    · next h =>
      intro c hc
      rcases List.mem_append.1 hc with hc | hc
      · exact ih (n / 10) (Nat.div_lt_self (by omega) (by omega)) c hc
      · rw [List.mem_singleton] at hc
        subst hc
        exact decDigitChar_isDigit (n % 10) (Nat.mod_lt _ (by omega))

/-- Decimal renderings are never empty. -/
theorem natToDecList_ne_nil (n : Nat) : natToDecList n ≠ [] := by
  unfold natToDecList
  split
  · simp
  · simp

/-- Parsing a digit list with one digit appended. -/
theorem parseDigits_append (l : List Char) (c : Char) :
    parseDigits (l ++ [c]) = 10 * parseDigits l + (c.toNat - 48) := by
  unfold parseDigits
  rw [List.foldl_append]
  rfl

/-- The digit accumulator inverts the decimal rendering. -/
theorem parseDigits_natToDecList (n : Nat) : parseDigits (natToDecList n) = n := by
  induction n using Nat.strong_induction_on with
  | _ n ih =>
    unfold natToDecList
    split
    · next h =>
      unfold parseDigits
      simp [List.foldl_cons, decDigitChar_toNat n h]
    · next h =>
      rw [parseDigits_append, ih (n / 10) (Nat.div_lt_self (by omega) (by omega)),
        decDigitChar_toNat (n % 10) (Nat.mod_lt _ (by omega))]
      omega

/-- JavaScript `parseInt` inverts the decimal rendering of a natural
number. -/
theorem parseIntJS_natToDecStr (n : Nat) : parseIntJS (natToDecStr n) = some n := by
  unfold parseIntJS natToDecStr
  have hdata : (String.mk (natToDecList n)).toList = natToDecList n := rfl
  rw [hdata]
  rw [List.takeWhile_eq_self_iff.mpr (natToDecList_isDigitAll n)]
  rw [if_neg (by simpa [List.isEmpty_iff] using natToDecList_ne_nil n)]
  rw [parseDigits_natToDecList]

/-! ## Claim theorems -/

/-- C1: for every submission that passes validation and sanitization
while the number of tracked in-flight jobs has reached
`maxConcurrentTests` (default 5), `executeTest` fails with the
capacity-exceeded error, the in-flight map is left untouched (no entry
inserted) and no status write is issued, so no Execution transitions to
`running` from such a submission. -/
theorem c1_capacity_rejected_before_running (st : ServiceState) (e : Execution) (now : Int)
    (hv : validateExecutionOk e = true) (hs : sanitizeOk e = true)
    (hcap : maxConcurrentTests ≤ st.runningTests.length) :
    executeTestAdmit st e now =
      { outcome := AdmitOutcome.capacityExceeded, state := st, statusWrites := [] } := by
  unfold executeTestAdmit
  rw [hv, hs]
  simp [hcap]

/-- C1 witness: a full pool of five jobs rejects a valid submission with
the capacity error, unchanged state and no status writes. -/
theorem c1_capacity_witness :
    validateExecutionOk sampleExecution = true ∧
    maxConcurrentTests ≤ fullState.runningTests.length ∧
    executeTestAdmit fullState sampleExecution 42 =
      { outcome := AdmitOutcome.capacityExceeded, state := fullState, statusWrites := [] } :=
  ⟨by decide, by decide,
    c1_capacity_rejected_before_running fullState sampleExecution 42
      (by decide) (by decide) (by decide)⟩

/-- C5 counterexample: submitting a job whose id is already tracked
in-flight (below capacity, not shutting down) is admitted, not rejected,
and `Map.set` silently replaces the tracked entry for that id. -/
theorem c5_duplicate_admitted_counterexample :
    dupState.runningTests = [("job1", 0)] ∧
    sampleExecution.id = "job1" ∧
    (executeTestAdmit dupState sampleExecution 7).outcome = AdmitOutcome.admitted ∧
    (executeTestAdmit dupState sampleExecution 7).state.runningTests = [("job1", 7)] := by
  decide

/-- C5 amended: `executeTest` consults the in-flight map only for its
size; a submission whose id is already tracked passes admission whenever
the capacity and shutdown checks pass, and the existing entry for that
id is silently replaced in place (the map size does not change). -/
theorem c5_duplicate_replaces_entry (st : ServiceState) (e : Execution) (now : Int)
    (hv : validateExecutionOk e = true) (hs : sanitizeOk e = true)
    (hcap : st.runningTests.length < maxConcurrentTests)
    (hsd : st.isShuttingDown = false)
    (hdup : st.runningTests.any (fun p => p.1 == e.id) = true) :
    (executeTestAdmit st e now).outcome = AdmitOutcome.admitted ∧
    (executeTestAdmit st e now).state.runningTests =
      st.runningTests.map (fun p => if p.1 == e.id then (e.id, now) else p) ∧
    (executeTestAdmit st e now).state.runningTests.length = st.runningTests.length := by
  unfold executeTestAdmit
  rw [hv, hs]
  simp [Nat.not_le.2 hcap, hsd, mapSet, hdup]

/-- C5 amended witness: with `job1` in flight, resubmitting `job1`
is admitted and its entry replaced, keeping the map size at one. -/
theorem c5_duplicate_replaces_entry_witness :
    validateExecutionOk sampleExecution = true ∧
    dupState.runningTests.any (fun p => p.1 == sampleExecution.id) = true ∧
    (executeTestAdmit dupState sampleExecution 7).outcome = AdmitOutcome.admitted ∧
    (executeTestAdmit dupState sampleExecution 7).state.runningTests.length =
      dupState.runningTests.length :=
  ⟨by decide, by decide,
    (c5_duplicate_replaces_entry dupState sampleExecution 7
      (by decide) (by decide) (by decide) (by decide) (by decide)).1,
    (c5_duplicate_replaces_entry dupState sampleExecution 7
      (by decide) (by decide) (by decide) (by decide) (by decide)).2.2⟩

/-- C6: storing an artifact and then downloading it, gunzipping exactly
when the stored metadata marks it compressed, returns the original
bytes, for every file type and size, whenever gunzip inverts gzip (an
identity of the external zlib library, taken as hypothesis). -/
theorem c6_store_download_roundtrip (c : Codec) (ft : FileType) (file : ByteSeq)
    (hinv : ∀ b : ByteSeq, c.gunzip (c.gzip b) = b) :
    downloadExecutionFile c (uploadExecutionFile c ft file) = file := by
  unfold uploadExecutionFile downloadExecutionFile
  by_cases h : shouldCompress ft file
  · simp [h, hinv]
  · simp [h]

/-- C6 witness: a concrete invertible codec round-trips a concrete log
artifact. -/
theorem c6_store_download_roundtrip_witness :
    (∀ b : ByteSeq, revCodec.gunzip (revCodec.gzip b) = b) ∧
    downloadExecutionFile revCodec (uploadExecutionFile revCodec FileType.log [1, 2, 3]) =
      [1, 2, 3] :=
  ⟨fun b => List.reverse_reverse b,
    c6_store_download_roundtrip revCodec FileType.log [1, 2, 3]
      (fun b => List.reverse_reverse b)⟩

/-- C7 counterexample: a `video` artifact strictly above the 512 KB
threshold is stored uncompressed, contradicting the claim that every
artifact type is compressed above the threshold. -/
theorem c7_big_video_uncompressed_counterexample :
    512 * 1024 < bigVideo.length ∧
    (uploadExecutionFile revCodec FileType.video bigVideo).compressed = false := by
  constructor
  · rw [bigVideo, List.length_replicate]
    norm_num
  · have h : shouldCompress FileType.video bigVideo = false := rfl
    rw [uploadExecutionFile, h]
    simp

/-- C7 amended: the stored bytes are compressed exactly when the
artifact type is `log` (always, regardless of size) or the type is
`report` with raw size strictly above 512 KB; `video` and `screenshot`
artifacts are never compressed. -/
theorem c7_compression_condition (c : Codec) (ft : FileType) (file : ByteSeq) :
    (uploadExecutionFile c ft file).compressed = true ↔
      (ft = FileType.log ∨ (ft = FileType.report ∧ 512 * 1024 < file.length)) := by
  cases ft <;> by_cases h : 512 * 1024 < file.length <;>
    simp [uploadExecutionFile, shouldCompress, h]

/-- C9: `mapPlaywrightStatus` maps each of the four canonical names,
case-insensitively, to itself, and every other status string to
`failed` (so its range is exactly {passed, failed, skipped, pending}). -/
theorem c9_status_mapping (s : String) :
    (mapPlaywrightStatus s = TestStatus.passed ↔ toLowerStr s = "passed") ∧
    (mapPlaywrightStatus s = TestStatus.skipped ↔ toLowerStr s = "skipped") ∧
    (mapPlaywrightStatus s = TestStatus.pending ↔ toLowerStr s = "pending") ∧
    (toLowerStr s = "failed" → mapPlaywrightStatus s = TestStatus.failed) ∧
    (toLowerStr s ≠ "passed" → toLowerStr s ≠ "failed" → toLowerStr s ≠ "skipped" →
      toLowerStr s ≠ "pending" → mapPlaywrightStatus s = TestStatus.failed) := by
  unfold mapPlaywrightStatus
  split_ifs with h1 h2 h3 h4 <;> simp_all

/-- C9 witness: an upper-case recognized name maps to itself and an
unrecognized name maps to `failed`. -/
theorem c9_status_mapping_witness :
    mapPlaywrightStatus "PASSED" = TestStatus.passed ∧
    mapPlaywrightStatus "timedOut" = TestStatus.failed :=
  ⟨(c9_status_mapping "PASSED").1.mpr (by decide),
    (c9_status_mapping "timedOut").2.2.2.2 (by decide) (by decide) (by decide) (by decide)⟩

/-- C2 counterexample: with no per-job override the effective timeout is
the 60 000 ms default, yet the watchdog timer is armed for 65 000 ms —
the timer is not armed for exactly the effective timeout. -/
theorem c2_timer_duration_counterexample :
    getTimeout sampleExecution = 60000 ∧
    monitorTimeoutMs sampleExecution = 65000 ∧
    monitorTimeoutMs sampleExecution ≠ getTimeout sampleExecution := by
  decide

/-- C2 amended: the watchdog timer is armed for the effective timeout
plus a fixed 5 000 ms buffer, where the effective timeout is the
positive per-job override (a finite positive number, or a string whose
trimmed numeric value is finite and positive) and otherwise the 60 000 ms
default; on expiry the child process is sent `SIGTERM` (when its
`killed` flag is not yet set) and a `SIGKILL` follows 5 000 ms later
unless the flag has been set by then, and the run is rejected with the
timeout error message naming the armed duration. -/
theorem c2_timeout_monitoring (e : Execution) (startTime : Int) (ka : Bool) :
    monitorTimeoutMs e = getTimeout e + 5000 ∧
    (readTimeout e.timeoutField = none → getTimeout e = 60000) ∧
    (∀ t : Int, readTimeout e.timeoutField = some t → getTimeout e = t) ∧
    (ka = false →
      (onMonitorTimeout e startTime false ka).signals =
        [(startTime + monitorTimeoutMs e, Signal.sigterm),
         (startTime + monitorTimeoutMs e + 5000, Signal.sigkill)]) ∧
    (ka = true →
      (onMonitorTimeout e startTime false ka).signals =
        [(startTime + monitorTimeoutMs e, Signal.sigterm)]) ∧
    (onMonitorTimeout e startTime false ka).rejection =
      "Test execution timed out after " ++ toString (monitorTimeoutMs e) ++ "ms" := by
  refine ⟨rfl, ?_, ?_, ?_, ?_, rfl⟩
  · intro h
    unfold getTimeout
    rw [h]
    rfl
  · intro t h
    unfold getTimeout
    rw [h]
  · intro h
    subst h
    rfl
  · intro h
    subst h
    rfl

/-- C2 amended witness: for the default execution the timer fires at
65 000 ms and sends `SIGTERM` then `SIGKILL` 5 seconds later. -/
theorem c2_timeout_monitoring_witness :
    monitorTimeoutMs sampleExecution = 65000 ∧
    (onMonitorTimeout sampleExecution 0 false false).signals =
      [(0 + monitorTimeoutMs sampleExecution, Signal.sigterm),
       (0 + monitorTimeoutMs sampleExecution + 5000, Signal.sigkill)] :=
  ⟨by decide, (c2_timeout_monitoring sampleExecution 0 false).2.2.2.1 rfl⟩

/-- C3 counterexample: a run with exit code 1, stderr `boom` and no
readable report normalizes to zero test details (not one synthetic
failed detail) and terminal status `completed`. -/
theorem c3_no_report_counterexample :
    noReportResult.exitCode = 1 ∧
    noReportResult.resultsJson = none ∧
    (processResults noReportResult []).testDetails = [] ∧
    (processResults noReportResult []).testDetails.length ≠ 1 ∧
    (processResults noReportResult []).status = ExecutionStatus.completed := by
  decide

/-- C3 amended: in the authoritative resource-monitoring executor,
`processResults` produces no synthetic detail at all — a run with no
readable report yields zero test details and status `completed`
whatever the exit code and stderr; the single synthetic outcome exists
only in the earlier executor variant, whose `parseFromOutput` yields
exactly one `passed` result on exit 0, and on nonzero exit exactly one
`failed` result whose error message is the captured stderr when
nonempty and the literal fallback text otherwise. -/
theorem c3_degraded_mode (exitCode : Int) (stdout stderr : String) (duration : Int)
    (ru : ResourceUsage) (scanned : List FileEntry) :
    (processResults
      { exitCode := exitCode, stdout := stdout, stderr := stderr, resultsJson := none,
        duration := duration, resourceUsage := ru } scanned).testDetails = [] ∧
    (processResults
      { exitCode := exitCode, stdout := stdout, stderr := stderr, resultsJson := none,
        duration := duration, resourceUsage := ru } scanned).status =
      ExecutionStatus.completed ∧
    parseFromOutput stdout stderr 0 =
      [{ name := "Test Execution", suite := "Default", status := TestStatus.passed,
         duration := 0, error := none }] ∧
    (exitCode ≠ 0 →
      parseFromOutput stdout stderr exitCode =
        [{ name := "Test Execution", suite := "Default", status := TestStatus.failed,
           duration := 0,
           error := some (if stderr == "" then "Test execution failed" else stderr) }]) := by
  refine ⟨?_, ?_, rfl, ?_⟩
  · simp [processResults]
  · simp [processResults]
  · intro h
    unfold parseFromOutput
    rw [if_neg (by simpa using h)]

/-- C3 amended witness: exit code 2 with empty stderr yields the single
synthetic failed result with the fallback error text. -/
theorem c3_degraded_mode_witness :
    (2 : Int) ≠ 0 ∧
    parseFromOutput "" "" 2 =
      [{ name := "Test Execution", suite := "Default", status := TestStatus.failed,
         duration := 0, error := some "Test execution failed" }] := by
  refine ⟨by decide, ?_⟩
  have h := (c3_degraded_mode 2 "" "" 0 { peakMemoryMb := 0, avgCpuPercent := 0 } []).2.2.2
    (by decide)
  simpa using h

/-- C4 counterexample: shutting down with one job in flight writes
status `cancelled` with error message `Service shutdown` (capital S),
not the claimed `service shutdown`. -/
theorem c4_shutdown_message_counterexample :
    (performGracefulShutdown oneJobRunning 50 0).updates.map StatusUpdate.errorMessage =
      [some "Service shutdown"] ∧
    (performGracefulShutdown oneJobRunning 50 0).updates.map StatusUpdate.status =
      [ExecutionStatus.cancelled] ∧
    some "Service shutdown" ≠ some "service shutdown" := by
  decide

/-- C4 amended: when shutdown runs, every in-flight job receives a
status write `cancelled` with completion time `now` and error message
`Service shutdown`; every tracked job with a live (not yet signalled)
process is sent `SIGTERM` at shutdown time, with a `SIGKILL` scheduled
5 000 ms later unless its `killed` flag is set by then; the routine
waits at most 10 000 ms before returning; and the in-flight map is
empty afterwards. -/
theorem c4_graceful_shutdown (running : List (String × RunningTestInfo)) (now settleMs : Int) :
    (performGracefulShutdown running now settleMs).updates =
      running.map (fun p =>
        { id := p.1, status := ExecutionStatus.cancelled, startedAt := none,
          completedAt := some now, errorMessage := some "Service shutdown" }) ∧
    (∀ p ∈ running, p.2.hasProcess = true → p.2.procKilled = false →
      (p.1, (now, Signal.sigterm) ::
        (if p.2.procKilledAtGrace then [] else [(now + 5000, Signal.sigkill)])) ∈
        (performGracefulShutdown running now settleMs).signals) ∧
    (performGracefulShutdown running now settleMs).waitedMs ≤ 10000 ∧
    (performGracefulShutdown running now settleMs).finalRunning = [] := by
  unfold performGracefulShutdown
  by_cases hemp : running.isEmpty
  · rw [if_pos hemp]
    rw [List.isEmpty_iff] at hemp
    subst hemp
    refine ⟨rfl, ?_, by norm_num, rfl⟩
    intro p hp
    exact absurd hp (List.not_mem_nil p)
  · rw [if_neg hemp]
    refine ⟨rfl, ?_, min_le_right _ _, rfl⟩
    intro p hp hproc hkilled
    have : (p.1, if p.2.hasProcess then
        terminateProcess p.2.procKilled p.2.procKilledAtGrace now else []) ∈
        running.map (fun p => (p.1, if p.2.hasProcess then
          terminateProcess p.2.procKilled p.2.procKilledAtGrace now else [])) :=
      List.mem_map_of_mem _ hp
    rw [hproc] at this
    rw [hkilled] at this
    simpa [terminateProcess] using this

/-- C4 amended witness: two jobs in flight are both cancelled with the
`Service shutdown` message, the second (never-signalled) process gets
`SIGTERM` then a scheduled `SIGKILL`, and the wait is bounded by 10 s. -/
theorem c4_graceful_shutdown_witness :
    (performGracefulShutdown twoJobsRunning 99 3000).updates.map StatusUpdate.errorMessage =
      [some "Service shutdown", some "Service shutdown"] ∧
    ("j2", [(99, Signal.sigterm), (5099, Signal.sigkill)]) ∈
      (performGracefulShutdown twoJobsRunning 99 3000).signals ∧
    (performGracefulShutdown twoJobsRunning 99 3000).waitedMs ≤ 10000 := by
  refine ⟨?_, ?_, (c4_graceful_shutdown twoJobsRunning 99 3000).2.2.1⟩
  · rw [(c4_graceful_shutdown twoJobsRunning 99 3000).1]
    decide
  · have h := (c4_graceful_shutdown twoJobsRunning 99 3000).2.1
      ("j2", { startTime := 1, hasProcess := true, procKilled := false,
               procKilledAtGrace := false })
      (by decide) rfl rfl
    simpa using h

/-- C8 counterexample: with 101 expired records, one cleanup run (batch
bound 100) leaves one record, while a second run deletes it — running
the routine twice does not leave the same surviving set as running it
once. -/
theorem c8_cleanup_batch_counterexample :
    expiredDb101.length = 101 ∧
    (cleanupExpiredFiles 1 expiredDb101).length = 1 ∧
    (cleanupExpiredFiles 1 (cleanupExpiredFiles 1 expiredDb101)).length = 0 ∧
    cleanupExpiredFiles 1 (cleanupExpiredFiles 1 expiredDb101) ≠
      cleanupExpiredFiles 1 expiredDb101 := by
  decide

/-- C8 amended: at a fixed current time, running the expired-artifact
cleanup twice in succession leaves the same surviving records as running
it once, provided at most 100 records are expired at that time (the
per-run batch bound); beyond the bound the second run deletes further
expired records. -/
theorem c8_cleanup_idempotent_within_batch (now : Int) (db : List FileRecord)
    (h : (db.filter (isExpired now)).length ≤ 100) :
    cleanupExpiredFiles now (cleanupExpiredFiles now db) = cleanupExpiredFiles now db := by
  have hbatch : expiredBatch now db = db.filter (isExpired now) := by
    unfold expiredBatch
    exact List.take_of_length_le h
  have hclean : (cleanupExpiredFiles now db).filter (isExpired now) = [] := by
    rw [List.filter_eq_nil_iff]
    intro r hr hexp
    obtain ⟨hdb, hall⟩ := mem_foldl_deleteExecutionFile (expiredBatch now db) db r hr
    have hre : r ∈ expiredBatch now db := by
      rw [hbatch]
      exact List.mem_filter.2 ⟨hdb, hexp⟩
    exact (hall r hre) rfl
  have hbatch2 : expiredBatch now (cleanupExpiredFiles now db) = [] := by
    unfold expiredBatch
    rw [hclean]
    rfl
  calc cleanupExpiredFiles now (cleanupExpiredFiles now db)
      = (expiredBatch now (cleanupExpiredFiles now db)).foldl
          (fun acc f => deleteExecutionFile acc f.id) (cleanupExpiredFiles now db) := rfl
    _ = cleanupExpiredFiles now db := by rw [hbatch2, List.foldl_nil]

/-- C8 amended witness: a three-record store with one expired record is
stable under a second cleanup run. -/
theorem c8_cleanup_idempotent_witness :
    (sampleDb.filter (isExpired 5)).length ≤ 100 ∧
    cleanupExpiredFiles 5 (cleanupExpiredFiles 5 sampleDb) = cleanupExpiredFiles 5 sampleDb :=
  ⟨by decide, c8_cleanup_idempotent_within_batch 5 sampleDb (by decide)⟩

/-- C10: for every key and positive ttl, the token/expires pair embedded
by `getSignedUrl` validates (returns `true`) at any current time not
past the expiry; validation returns `false` once the current time is
past the expiry, and `false` whenever the presented token differs from
the HMAC-SHA256 of `key:expires` under the configured secret.  `hmac`
abstracts the external HMAC-SHA256 primitive. -/
theorem c10_signed_url_roundtrip (hmac : String → String → String)
    (secretKey key : String) (nowSec expiresIn nowCheck : Nat) (hpos : 0 < expiresIn) :
    (nowCheck ≤ nowSec + expiresIn →
      fsValidateSignedUrl hmac secretKey key
        (fsGetSignedUrl hmac secretKey key nowSec expiresIn).token
        (fsGetSignedUrl hmac secretKey key nowSec expiresIn).expires nowCheck = true) ∧
    (nowSec + expiresIn < nowCheck →
      fsValidateSignedUrl hmac secretKey key
        (fsGetSignedUrl hmac secretKey key nowSec expiresIn).token
        (fsGetSignedUrl hmac secretKey key nowSec expiresIn).expires nowCheck = false) ∧
    (∀ token : String,
      token ≠ hmac secretKey
        (key ++ ":" ++ (fsGetSignedUrl hmac secretKey key nowSec expiresIn).expires) →
      fsValidateSignedUrl hmac secretKey key token
        (fsGetSignedUrl hmac secretKey key nowSec expiresIn).expires nowCheck = false) := by
  have hparse : parseIntJS (fsGetSignedUrl hmac secretKey key nowSec expiresIn).expires =
      some (nowSec + expiresIn) := parseIntJS_natToDecStr (nowSec + expiresIn)
  refine ⟨?_, ?_, ?_⟩
  · intro hle
    unfold fsValidateSignedUrl
    rw [hparse]
    simp only [decide_eq_true_eq]
    rw [if_neg (by simpa using Nat.not_lt.2 hle)]
    exact beq_self_eq_true _
  · intro hlt
    unfold fsValidateSignedUrl
    rw [hparse]
    simp only [decide_eq_true_eq]
    rw [if_pos (by simpa using hlt)]
  · intro token htok
    unfold fsValidateSignedUrl
    rw [hparse]
    by_cases hexp : nowSec + expiresIn < nowCheck
    · simp [hexp]
    · simp only [decide_eq_true_eq]
      rw [if_neg (by simpa using hexp)]
      exact beq_eq_false_iff_ne.2 htok

/-- C10 witness: a concrete keyed digest, key and positive ttl validate
at a time before the expiry. -/
theorem c10_signed_url_roundtrip_witness :
    0 < 50 ∧
    fsValidateSignedUrl concatHmac "sec" "k"
      (fsGetSignedUrl concatHmac "sec" "k" 100 50).token
      (fsGetSignedUrl concatHmac "sec" "k" 100 50).expires 120 = true :=
  ⟨by decide,
    (c10_signed_url_roundtrip concatHmac "sec" "k" 100 50 120 (by decide)).1 (by decide)⟩

/-- C7 amended witness: an empty log artifact is compressed, a small
report is not. -/
theorem c7_compression_condition_witness :
    (uploadExecutionFile revCodec FileType.log []).compressed = true ∧
    (uploadExecutionFile revCodec FileType.report [1]).compressed = false :=
  ⟨(c7_compression_condition revCodec FileType.log []).mpr (Or.inl rfl),
    by
      have h := (c7_compression_condition revCodec FileType.report [1]).not
      rw [Bool.not_eq_true] at h
      exact h.mpr (by decide)⟩
